import Mathlib

/-!
Shallow embedding of the data-transformation pipeline of
`src/baseballcode24.py` (a Streamlit baseball dashboard): the fetcher
`fetch_data`, the deriver/projector `clean_data`, and the module-level
PA / team filters, over a pandas-DataFrame-like table model.

Modelling conventions:
- A DataFrame is a `Table`: an ordered list of column names and an ordered
  list of rows, each row an ordered list of cells.  A cell is a string, a
  rational number, or null (pandas NaN / None).
- `df.empty` is true when the table has no rows or no columns (pandas
  semantics: any axis of length 0).
- Column access `df[c]` on a missing column raises KeyError; operations
  that can raise are modelled in `Except String`.
- `df[c] = series` assigns in place: it overwrites an existing column or
  appends a new one at the end.  `clean_data` is therefore modelled in
  state-passing style (`clean_data_run` returns the post-state of its
  argument together with the returned table).
- Numeric addition with NaN yields NaN (null); comparisons with NaN are
  false, matching pandas.  Sorting a team list whose values are not all
  strings is modelled as an error (Python `sorted` raises on unorderable
  mixed types).
-/

inductive Value where
  | str : String → Value
  | num : ℚ → Value
  | null : Value
deriving DecidableEq, Repr

/-- pandas NaN-propagating addition: `num + num` adds, anything else is null. -/
def Value.add : Value → Value → Value
  | .num a, .num b => .num (a + b)
  | _, _ => .null

structure Table where
  cols : List String
  rows : List (List Value)
deriving DecidableEq, Repr

/-- pandas `df.empty`: true iff some axis has length zero. -/
def Table.isEmpty (t : Table) : Bool := t.rows.isEmpty || t.cols.isEmpty

/-- Index of a column label, `none` when absent (pandas KeyError case). -/
def Table.colIdx (t : Table) (c : String) : Option Nat := t.cols.findIdx? (· == c)

/-- Python `c in df.columns`. -/
def Table.hasCol (t : Table) (c : String) : Bool := t.cols.contains c

/-- The cell of row `r` in the column at index `i`; missing cells read as null. -/
def cellAt (i : Nat) (r : List Value) : Value := r.getD i Value.null

/-- The values of column `c` (`df[c]` as a series), `none` when `c` is absent. -/
def Table.getCol (t : Table) (c : String) : Option (List Value) :=
  (t.colIdx c).map (fun i => t.rows.map (cellAt i))

/-- pandas `df[c] = vs`: overwrite an existing column in place, or append a
new column at the end. -/
def Table.setCol (t : Table) (c : String) (vs : List Value) : Table :=
  match t.colIdx c with
  | some i => ⟨t.cols, List.zipWith (fun r v => r.set i v) t.rows vs⟩
  | none => ⟨t.cols ++ [c], List.zipWith (fun r v => r ++ [v]) t.rows vs⟩

/-- pandas `df[cs]` for a list of labels `cs` (in `clean_data` every label in
`cs` is present in `t`, so the `none` branch is never exercised there). -/
def Table.selectCols (t : Table) (cs : List String) : Table :=
  ⟨cs, t.rows.map (fun r => cs.map (fun c =>
    match t.colIdx c with
    | some i => cellAt i r
    | none => Value.null))⟩

/-- `df["OBP"] + df["SLG"]` where `i`, `j` are the OBP and SLG column indices. -/
def opsColumn (t : Table) (i j : Nat) : List Value :=
  t.rows.map (fun r => Value.add (cellAt i r) (cellAt j r))

/-- The fixed display-column list of `clean_data` (line 23 of the source). -/
def displayCols : List String := ["Name", "WAR", "OPS", "HR", "AVG", "Team"]

/-- `clean_data` (source lines 19-26) in state-passing style: the result pairs
the post-state of the argument DataFrame (mutated by `df["OPS"] = ...`) with
the returned table.  `df["OBP"]` is evaluated first, so a missing OBP column
raises before a missing SLG column. -/
def clean_data_run (df : Table) : Except String (Table × Table) :=
  if df.isEmpty then .ok (df, df)
  else
    match df.colIdx "OBP", df.colIdx "SLG" with
    | none, _ => .error "KeyError: OBP"
    | some _, none => .error "KeyError: SLG"
    | some i, some j =>
      let df2 := df.setCol "OPS" (opsColumn df i j)
      let available_cols := displayCols.filter (fun c => df2.hasCol c)
      .ok (df2, df2.selectCols available_cols)

/-- The value returned by `clean_data` (the spec's `deriveAndProject`). -/
def clean_data (df : Table) : Except String Table :=
  (clean_data_run df).map Prod.snd

/-- pandas cell comparison `cell >= minPA`: false for NaN, true only for a
number at least `minPA` (the fetched PA column is numeric; a non-numeric
cell would make pandas raise, which no claim exercises). -/
def paGe (v : Value) (minPA : ℚ) : Bool :=
  match v with
  | .num q => decide (minPA ≤ q)
  | _ => false

/-- Source line 50, `df = df[df["PA"] >= min_pa]`, as a function of `df`. -/
def filterByPA (df : Table) (minPA : ℚ) : Except String Table :=
  match df.colIdx "PA" with
  | none => .error "KeyError: PA"
  | some i => .ok ⟨df.cols, df.rows.filter (fun r => paGe (cellAt i r) minPA)⟩

/-- Source lines 61-62 together with the spec's "All" sentinel contract:
`if selected_team != "All": df = df[df["Team"] == selected_team]`.
pandas `==` against a string is false for NaN and for non-string cells. -/
def filterByTeam (df : Table) (team : String) : Except String Table :=
  if team = "All" then .ok df
  else
    match df.colIdx "Team" with
    | none => .error "KeyError: Team"
    | some i => .ok ⟨df.cols, df.rows.filter (fun r => cellAt i r == Value.str team)⟩

/-- pandas `.dropna()` on a series. -/
def dropna (vs : List Value) : List Value := vs.filter (fun v => v != Value.null)

/-- pandas `.unique()`: deduplication keeping the first occurrence of each value. -/
def uniqueFirst : List Value → List Value
  | [] => []
  | v :: l => v :: uniqueFirst (l.filter (fun w => w != v))
termination_by l => l.length
decreasing_by
  simp only [List.length_cons]
  exact Nat.lt_succ_of_le (List.length_filter_le _ _)

/-- Python `sorted(...)` over `.tolist()`: succeeds on a list of strings;
a non-string element makes the comparisons unorderable (TypeError). -/
def toStrList : List Value → Except String (List String)
  | [] => .ok []
  | .str s :: l => (toStrList l).map (fun ss => s :: ss)
  | _ :: _ => .error "TypeError: unorderable types"

/-- Source line 58: `teams = ["All"] + sorted(df["Team"].dropna().unique().tolist())`. -/
def teams_of (df : Table) : Except String (List String) :=
  match df.colIdx "Team" with
  | none => .error "KeyError: Team"
  | some i =>
    let vals := df.rows.map (cellAt i)
    (toStrList (uniqueFirst (dropna vals))).map
      (fun ss => "All" :: List.insertionSort (fun a b => a ≤ b) ss)

/-- The module-level pipeline, source lines 48-62, as a function of the
fetched table and the two UI inputs: the PA filter and `clean_data` run only
on a non-empty fetch; the team list and team filter run only on a non-empty
cleaned table.  The result is the table handed to the presentation layer. -/
def pipeline_actual (fetched : Table) (minPA : ℚ) (team : String) :
    Except String Table := do
  let df ←
    if fetched.isEmpty then pure fetched
    else do
      let d1 ← filterByPA fetched minPA
      clean_data d1
  if df.isEmpty then pure df
  else do
    let _ts ← teams_of df
    filterByTeam df team

/-- Modelled from the spec (claim C3's pipeline order, "Fetcher → Deriver →
Filter Pipeline"): derivation/projection first, then the PA filter, then the
team filter.  Written from the claim's words, to be compared with
`pipeline_actual`. -/
def pipeline_claimed (fetched : Table) (minPA : ℚ) (team : String) :
    Except String Table := do
  let d1 ← clean_data fetched
  let d2 ← filterByPA d1 minPA
  filterByTeam d2 team

/-- `fetch_data` (source lines 10-16) with the external provider abstracted
as a function that either returns a table or raises.  The result pairs the
returned table with the user-visible error message, if any (`st.error`). -/
def fetch_data (provider : Int → Except String Table) (year : Int) :
    Table × Option String :=
  match provider year with
  | .ok t => (t, none)
  | .error e =>
    (⟨[], []⟩, some ("Error fetching data for " ++ toString year ++ ": " ++ e))

/-! ### Helper lemmas -/

theorem colIdx_lt {t : Table} {c : String} {i : Nat} (h : t.colIdx c = some i) :
    i < t.cols.length := by
  obtain ⟨hlt, -, -⟩ := List.findIdx?_eq_some_iff_getElem.mp h
  exact hlt

theorem colIdx_getElem {t : Table} {c : String} {i : Nat} (h : t.colIdx c = some i) :
    ∃ hlt : i < t.cols.length, t.cols[i] = c := by
  obtain ⟨hlt, hp, -⟩ := List.findIdx?_eq_some_iff_getElem.mp h
  exact ⟨hlt, by simpa using hp⟩

theorem colIdx_mem {t : Table} {c : String} {i : Nat} (h : t.colIdx c = some i) :
    c ∈ t.cols := by
  obtain ⟨hlt, hc⟩ := colIdx_getElem h
  exact hc ▸ List.getElem_mem hlt

theorem hasCol_iff_mem {t : Table} {c : String} : t.hasCol c = true ↔ c ∈ t.cols := by
  simp [Table.hasCol, List.contains, List.elem_eq_mem]

theorem colIdx_eq_none {t : Table} {c : String} (h : c ∉ t.cols) : t.colIdx c = none := by
  rw [Table.colIdx, List.findIdx?_eq_none_iff]
  intro x hx
  exact beq_eq_false_iff_ne.mpr (fun he => h (he ▸ hx))

theorem paGe_iff {v : Value} {m : ℚ} : paGe v m = true ↔ ∃ q, v = Value.num q ∧ m ≤ q := by
  cases v <;> simp [paGe]

theorem mem_uniqueFirst (l : List Value) (a : Value) : a ∈ uniqueFirst l ↔ a ∈ l := by
  induction l using uniqueFirst.induct with
  | case1 => simp [uniqueFirst]
  | case2 v l ih =>
    rw [uniqueFirst]
    simp only [List.mem_cons, ih, List.mem_filter, bne_iff_ne]
    constructor
    · rintro (rfl | ⟨hm, -⟩)
      · exact .inl rfl
      · exact .inr hm
    · rintro (rfl | hm)
      · exact .inl rfl
      · by_cases hv : a = v
        · exact .inl hv
        · exact .inr ⟨hm, hv⟩

theorem nodup_uniqueFirst (l : List Value) : (uniqueFirst l).Nodup := by
  induction l using uniqueFirst.induct with
  | case1 => simp [uniqueFirst]
  | case2 v l ih =>
    rw [uniqueFirst]
    refine List.nodup_cons.mpr ⟨?_, ih⟩
    rw [mem_uniqueFirst]
    simp [List.mem_filter]

theorem toStrList_ok (l : List Value) (h : ∀ v ∈ l, ∃ s, v = Value.str s) :
    ∃ ss, toStrList l = .ok ss ∧ l = ss.map Value.str := by
  induction l with
  | nil => exact ⟨[], rfl, rfl⟩
  | cons v l ih =>
    obtain ⟨s, rfl⟩ := h v (List.mem_cons_self v l)
    obtain ⟨ss, hok, hmap⟩ := ih (fun w hw => h w (List.mem_cons_of_mem _ hw))
    exact ⟨s :: ss, by simp [toStrList, hok, Except.map], by simp [hmap]⟩
/-- C1: contrary to the claim, on a non-empty table missing OBP (or SLG) the
code raises a KeyError from the unconditional `df["OBP"] + df["SLG"]`. -/
theorem C1_clean_data_raises_on_missing_source_cols :
    clean_data ⟨["Name", "SLG"], [[Value.str "A", Value.num (45/100)]]⟩
      = .error "KeyError: OBP" ∧
    clean_data ⟨["Name", "OBP"], [[Value.str "A", Value.num (3/10)]]⟩
      = .error "KeyError: SLG" :=
  ⟨rfl, rfl⟩

/-- C2: the first application projects away OBP and SLG, so the second
application raises KeyError on the result even though OPS is present. -/
theorem C2_clean_data_not_idempotent :
    clean_data ⟨["Name", "OBP", "SLG", "WAR"],
        [[Value.str "A", Value.num (3/10), Value.num (45/100), Value.num 3]]⟩
      = .ok ⟨["Name", "WAR", "OPS"], [[Value.str "A", Value.num 3, Value.num (3/4)]]⟩ ∧
    Table.hasCol ⟨["Name", "WAR", "OPS"], [[Value.str "A", Value.num 3, Value.num (3/4)]]⟩ "OPS" = true ∧
    clean_data ⟨["Name", "WAR", "OPS"], [[Value.str "A", Value.num 3, Value.num (3/4)]]⟩
      = .error "KeyError: OBP" := by
  refine ⟨?_, rfl, rfl⟩
  simp [clean_data, clean_data_run, Except.map, Table.isEmpty, Table.colIdx, Table.setCol,
    Table.selectCols, opsColumn, displayCols, Table.hasCol, cellAt, Value.add, List.findIdx?_cons]
  norm_num

/-- C5: when the external retrieval fails, `fetch_data` returns the empty
zero-row table together with a user-visible error message. -/
theorem C5_fetch_failure (provider : Int → Except String Table) (year : Int) (e : String)
    (h : provider year = .error e) :
    (fetch_data provider year).1 = ⟨[], []⟩ ∧
    (fetch_data provider year).1.rows.length = 0 ∧
    (fetch_data provider year).2
      = some ("Error fetching data for " ++ toString year ++ ": " ++ e) := by
  simp [fetch_data, h]

/-- C5 witness: a provider that always fails, at year 2024. -/
theorem C5_fetch_failure_witness :
    (fetch_data (fun _ => .error "boom") 2024).1 = ⟨[], []⟩ ∧
    (fetch_data (fun _ => .error "boom") 2024).2
      = some ("Error fetching data for 2024: boom") :=
  ⟨(C5_fetch_failure (fun _ => .error "boom") 2024 "boom" rfl).1,
   ((C5_fetch_failure (fun _ => .error "boom") 2024 "boom" rfl).2.2).trans (by rfl)⟩

theorem colIdx_of_mem {t : Table} {c : String} (h : c ∈ t.cols) :
    t.colIdx c = some (t.cols.findIdx (· == c)) :=
  List.findIdx?_eq_some_of_exists ⟨c, h, by simp⟩

/-- C6: with a numeric-or-null PA column, the PA filter succeeds, keeps exactly
the rows whose PA is at least minPA, and is an order-preserving sublist. -/
theorem C6_filterByPA_spec (df : Table) (minPA : ℚ) (i : Nat)
    (hi : df.colIdx "PA" = some i)
    (hnum : ∀ r ∈ df.rows, (∃ q, cellAt i r = Value.num q) ∨ cellAt i r = Value.null) :
    filterByPA df minPA
      = .ok ⟨df.cols, df.rows.filter (fun r => paGe (cellAt i r) minPA)⟩ ∧
    (df.rows.filter (fun r => paGe (cellAt i r) minPA)).Sublist df.rows ∧
    ∀ r, r ∈ df.rows.filter (fun r => paGe (cellAt i r) minPA) ↔
      r ∈ df.rows ∧ ∃ q, cellAt i r = Value.num q ∧ minPA ≤ q := by
  refine ⟨by simp only [filterByPA, hi], List.filter_sublist _, fun r => ?_⟩
  simp only [List.mem_filter, paGe_iff]

/-- C6 witness: two rows with PA 150 and 50, threshold 100 keeps only the first. -/
theorem C6_filterByPA_witness :
    filterByPA ⟨["Name", "PA"], [[Value.str "A", Value.num 150], [Value.str "B", Value.num 50]]⟩ 100
      = .ok ⟨["Name", "PA"], [[Value.str "A", Value.num 150]]⟩ := by
  have h := (C6_filterByPA_spec
    ⟨["Name", "PA"], [[Value.str "A", Value.num 150], [Value.str "B", Value.num 50]]⟩ 100 1 rfl
    (by
      intro r hr
      simp only [List.mem_cons, List.not_mem_nil, or_false] at hr
      rcases hr with rfl | rfl
      · exact .inl ⟨150, rfl⟩
      · exact .inl ⟨50, rfl⟩)).1
  rw [h]
  refine congrArg Except.ok ?_
  norm_num [cellAt, paGe, List.filter]

/-- C7: the team filter is the identity for the sentinel "All"; otherwise,
when a Team column exists, it keeps exactly the rows whose Team cell equals
the selector, as an order-preserving sublist. -/
theorem C7_filterByTeam_spec (df : Table) (team : String) (i : Nat) :
    filterByTeam df "All" = .ok df ∧
    (team ≠ "All" → df.colIdx "Team" = some i →
      filterByTeam df team
        = .ok ⟨df.cols, df.rows.filter (fun r => cellAt i r == Value.str team)⟩ ∧
      (df.rows.filter (fun r => cellAt i r == Value.str team)).Sublist df.rows ∧
      ∀ r, r ∈ df.rows.filter (fun r => cellAt i r == Value.str team) ↔
        r ∈ df.rows ∧ cellAt i r = Value.str team) := by
  refine ⟨by simp [filterByTeam], fun hne hi => ⟨?_, List.filter_sublist _, fun r => ?_⟩⟩
  · simp only [filterByTeam, if_neg hne, hi]
  · simp only [List.mem_filter, beq_iff_eq]

/-- C7 witness: filtering three rows (NYY, BOS, null) by NYY keeps row one;
filtering by "All" returns the table unchanged. -/
theorem C7_filterByTeam_witness :
    filterByTeam ⟨["Team"], [[Value.str "NYY"], [Value.str "BOS"], [Value.null]]⟩ "NYY"
      = .ok ⟨["Team"], [[Value.str "NYY"]]⟩ ∧
    filterByTeam ⟨["Team"], [[Value.str "NYY"], [Value.str "BOS"], [Value.null]]⟩ "All"
      = .ok ⟨["Team"], [[Value.str "NYY"], [Value.str "BOS"], [Value.null]]⟩ := by
  have h := C7_filterByTeam_spec
    ⟨["Team"], [[Value.str "NYY"], [Value.str "BOS"], [Value.null]]⟩ "NYY" 0
  exact ⟨((h.2 (by decide) rfl).1).trans (congrArg Except.ok (by decide)), h.1⟩
/-- C8 counterexample: the empty table returned by a failed fetch
(`pd.DataFrame()`, no rows and no columns) makes both filters raise KeyError
when applied directly, contrary to "the filters on an empty table return an
empty table, never raising". -/
theorem C8_counterexample :
    filterByPA ⟨[], []⟩ 100 = .error "KeyError: PA" ∧
    filterByTeam ⟨[], []⟩ "NYY" = .error "KeyError: Team" :=
  ⟨rfl, rfl⟩

/-- C8 amended: an empty input passes through the full pipeline unchanged and
without error, because the pipeline skips both filters and the deriver guard
returns the table unchanged; applied directly to a zero-row table, the filters
return an empty table provided the filtered column is present. -/
theorem C8_empty_pipeline (fetched : Table) (minPA : ℚ) (team : String) :
    (fetched.isEmpty = true →
      pipeline_actual fetched minPA team = .ok fetched ∧
      clean_data fetched = .ok fetched) ∧
    (fetched.rows = [] → ∀ i, fetched.colIdx "PA" = some i →
      filterByPA fetched minPA = .ok ⟨fetched.cols, []⟩) ∧
    (fetched.rows = [] → fetched.hasCol "Team" = true →
      filterByTeam fetched team = .ok ⟨fetched.cols, []⟩) := by
  obtain ⟨cols, rows⟩ := fetched
  refine ⟨fun he => ⟨?_, ?_⟩, fun hrows i hi => ?_, fun hrows hteam => ?_⟩
  · simp [pipeline_actual, he, Except.pure, Except.bind, Bind.bind, Pure.pure]
  · simp [clean_data, clean_data_run, he, Except.map]
  · simp only at hrows
    subst hrows
    simp only [filterByPA, hi, List.filter_nil]
  · simp only at hrows
    subst hrows
    by_cases hall : team = "All"
    · simp [filterByTeam, hall]
    · have hmem := hasCol_iff_mem.mp hteam
      simp only [filterByTeam, if_neg hall, colIdx_of_mem hmem, List.filter_nil]

/-- C8 witness: the zero-column empty table flows through the whole pipeline
unchanged; the filters return a zero-row table when their column is present. -/
theorem C8_empty_pipeline_witness :
    pipeline_actual ⟨[], []⟩ 100 "All" = .ok ⟨[], []⟩ ∧
    clean_data ⟨[], []⟩ = .ok ⟨[], []⟩ ∧
    filterByPA ⟨["PA", "Team"], []⟩ 100 = .ok ⟨["PA", "Team"], []⟩ ∧
    filterByTeam ⟨["PA", "Team"], []⟩ "NYY" = .ok ⟨["PA", "Team"], []⟩ :=
  ⟨((C8_empty_pipeline ⟨[], []⟩ 100 "All").1 rfl).1,
   ((C8_empty_pipeline ⟨[], []⟩ 100 "All").1 rfl).2,
   (C8_empty_pipeline ⟨["PA", "Team"], []⟩ 100 "NYY").2.1 rfl 0 rfl,
   (C8_empty_pipeline ⟨["PA", "Team"], []⟩ 100 "NYY").2.2 rfl rfl⟩

theorem str_bne_null (s : String) : (Value.str s != Value.null) = true := rfl

theorem num_bne_null (q : ℚ) : (Value.num q != Value.null) = true := rfl

theorem null_bne_null : (Value.null != Value.null) = false := rfl

theorem str_bne_str (a b : String) : (Value.str a != Value.str b) = (a != b) := by
  by_cases h : a = b
  · subst h
    simp
  · rw [bne_iff_ne.mpr (fun hc => h (by injection hc)), bne_iff_ne.mpr h]

/-- C3 counterexample: on the spec's own two-row scenario table, the real
pipeline (PA filter before clean_data) succeeds, while the claimed order
(clean_data first) cannot even run: clean_data drops the PA column, so the
subsequent PA filter raises KeyError. -/
theorem C3_counterexample :
    pipeline_actual ⟨["Name", "Team", "PA", "OBP", "SLG", "WAR", "HR", "AVG"],
        [[Value.str "A", Value.str "NYY", Value.num 150, Value.num (3/10), Value.num (45/100),
          Value.num 3, Value.num 10, Value.num (1/4)],
         [Value.str "B", Value.str "BOS", Value.num 50, Value.num (35/100), Value.num (1/2),
          Value.num 2, Value.num 5, Value.num (28/100)]]⟩ 100 "All"
      = .ok ⟨["Name", "WAR", "OPS", "HR", "AVG", "Team"],
        [[Value.str "A", Value.num 3, Value.num (3/4), Value.num 10, Value.num (1/4),
          Value.str "NYY"]]⟩ ∧
    pipeline_claimed ⟨["Name", "Team", "PA", "OBP", "SLG", "WAR", "HR", "AVG"],
        [[Value.str "A", Value.str "NYY", Value.num 150, Value.num (3/10), Value.num (45/100),
          Value.num 3, Value.num 10, Value.num (1/4)],
         [Value.str "B", Value.str "BOS", Value.num 50, Value.num (35/100), Value.num (1/2),
          Value.num 2, Value.num 5, Value.num (28/100)]]⟩ 100 "All"
      = .error "KeyError: PA" ∧
    pipeline_actual ⟨["Name", "Team", "PA", "OBP", "SLG", "WAR", "HR", "AVG"],
        [[Value.str "A", Value.str "NYY", Value.num 150, Value.num (3/10), Value.num (45/100),
          Value.num 3, Value.num 10, Value.num (1/4)],
         [Value.str "B", Value.str "BOS", Value.num 50, Value.num (35/100), Value.num (1/2),
          Value.num 2, Value.num 5, Value.num (28/100)]]⟩ 100 "All"
      ≠ pipeline_claimed ⟨["Name", "Team", "PA", "OBP", "SLG", "WAR", "HR", "AVG"],
        [[Value.str "A", Value.str "NYY", Value.num 150, Value.num (3/10), Value.num (45/100),
          Value.num 3, Value.num 10, Value.num (1/4)],
         [Value.str "B", Value.str "BOS", Value.num 50, Value.num (35/100), Value.num (1/2),
          Value.num 2, Value.num 5, Value.num (28/100)]]⟩ 100 "All" := by
  have h1 : pipeline_actual ⟨["Name", "Team", "PA", "OBP", "SLG", "WAR", "HR", "AVG"],
        [[Value.str "A", Value.str "NYY", Value.num 150, Value.num (3/10), Value.num (45/100),
          Value.num 3, Value.num 10, Value.num (1/4)],
         [Value.str "B", Value.str "BOS", Value.num 50, Value.num (35/100), Value.num (1/2),
          Value.num 2, Value.num 5, Value.num (28/100)]]⟩ 100 "All"
      = .ok ⟨["Name", "WAR", "OPS", "HR", "AVG", "Team"],
        [[Value.str "A", Value.num 3, Value.num (3/4), Value.num 10, Value.num (1/4),
          Value.str "NYY"]]⟩ := by
    simp +decide [pipeline_actual, filterByPA, clean_data, clean_data_run, Table.isEmpty, Table.colIdx,
      Table.setCol, Table.selectCols, opsColumn, displayCols, Table.hasCol, cellAt, Value.add,
      paGe, teams_of, filterByTeam, dropna, uniqueFirst, toStrList, List.insertionSort,
      List.orderedInsert, List.findIdx?_cons, List.filter, Except.map, Except.bind, Bind.bind,
      Except.pure, Pure.pure, str_bne_null, num_bne_null, null_bne_null, str_bne_str]
    norm_num
  have h2 : pipeline_claimed ⟨["Name", "Team", "PA", "OBP", "SLG", "WAR", "HR", "AVG"],
        [[Value.str "A", Value.str "NYY", Value.num 150, Value.num (3/10), Value.num (45/100),
          Value.num 3, Value.num 10, Value.num (1/4)],
         [Value.str "B", Value.str "BOS", Value.num 50, Value.num (35/100), Value.num (1/2),
          Value.num 2, Value.num 5, Value.num (28/100)]]⟩ 100 "All"
      = .error "KeyError: PA" := by
    simp [pipeline_claimed, filterByPA, clean_data, clean_data_run, Table.isEmpty, Table.colIdx,
      Table.setCol, Table.selectCols, opsColumn, displayCols, Table.hasCol, cellAt, Value.add,
      List.findIdx?_cons, List.filter, Except.map, Except.bind, Bind.bind, Except.pure, Pure.pure]
  refine ⟨h1, h2, fun h => ?_⟩
  rw [h1, h2] at h
  exact Except.noConfusion h

/-- C3 amended: the stages run in the order fetch, PA filter, clean_data,
team filter; whenever the intermediate stages succeed on a non-empty table,
the table handed to the presentation layer is
`filterByTeam (clean_data (filterByPA fetched minPA)) team`. -/
theorem C3_pipeline_order (fetched d1 d2 : Table) (minPA : ℚ) (team : String) (ts : List String)
    (hne : fetched.isEmpty = false)
    (h1 : filterByPA fetched minPA = .ok d1)
    (h2 : clean_data d1 = .ok d2)
    (hne2 : d2.isEmpty = false)
    (hts : teams_of d2 = .ok ts) :
    pipeline_actual fetched minPA team = filterByTeam d2 team := by
  simp [pipeline_actual, hne, h1, h2, hne2, hts, Except.bind, Bind.bind, Except.pure, Pure.pure]

/-- C3 amended witness: a one-row table with PA 150 at threshold 100; the
pipeline output is the team filter applied to the cleaned PA-filtered table. -/
theorem C3_pipeline_order_witness :
    filterByPA ⟨["Team", "PA", "OBP", "SLG"],
        [[Value.str "NYY", Value.num 150, Value.num 1, Value.num 2]]⟩ 100
      = .ok ⟨["Team", "PA", "OBP", "SLG"],
        [[Value.str "NYY", Value.num 150, Value.num 1, Value.num 2]]⟩ ∧
    clean_data ⟨["Team", "PA", "OBP", "SLG"],
        [[Value.str "NYY", Value.num 150, Value.num 1, Value.num 2]]⟩
      = .ok ⟨["OPS", "Team"], [[Value.num 3, Value.str "NYY"]]⟩ ∧
    pipeline_actual ⟨["Team", "PA", "OBP", "SLG"],
        [[Value.str "NYY", Value.num 150, Value.num 1, Value.num 2]]⟩ 100 "All"
      = filterByTeam ⟨["OPS", "Team"], [[Value.num 3, Value.str "NYY"]]⟩ "All" := by
  have ha : filterByPA ⟨["Team", "PA", "OBP", "SLG"],
        [[Value.str "NYY", Value.num 150, Value.num 1, Value.num 2]]⟩ 100
      = .ok ⟨["Team", "PA", "OBP", "SLG"],
        [[Value.str "NYY", Value.num 150, Value.num 1, Value.num 2]]⟩ := by
    simp +decide [filterByPA, Table.colIdx, cellAt, paGe, List.findIdx?_cons, List.filter]
  have hb : clean_data ⟨["Team", "PA", "OBP", "SLG"],
        [[Value.str "NYY", Value.num 150, Value.num 1, Value.num 2]]⟩
      = .ok ⟨["OPS", "Team"], [[Value.num 3, Value.str "NYY"]]⟩ := by
    simp +decide [clean_data, clean_data_run, Except.map, Table.isEmpty, Table.colIdx,
      Table.setCol, Table.selectCols, opsColumn, displayCols, Table.hasCol, cellAt, Value.add,
      List.findIdx?_cons]
    norm_num
  have hc : teams_of ⟨["OPS", "Team"], [[Value.num 3, Value.str "NYY"]]⟩ = .ok ["All", "NYY"] := by
    simp +decide [teams_of, Table.colIdx, cellAt, dropna, uniqueFirst, toStrList,
      List.insertionSort, List.orderedInsert, List.findIdx?_cons, List.filter, Except.map,
      str_bne_null, num_bne_null, null_bne_null, str_bne_str]
  exact ⟨ha, hb,
    C3_pipeline_order _ _ _ 100 "All" ["All", "NYY"] rfl ha hb rfl hc⟩

theorem cellAt_set_ne {k m : Nat} (hkm : k ≠ m) (r : List Value) (x : Value) :
    cellAt m (r.set k x) = cellAt m r := by
  simp [cellAt, List.getD_eq_getElem?_getD, List.getElem?_set_ne hkm]

theorem cellAt_append_lt {m : Nat} {r : List Value} (h : m < r.length) (v : Value) :
    cellAt m (r ++ [v]) = cellAt m r := by
  simp [cellAt, List.getD_eq_getElem?_getD, List.getElem?_append_left h]

theorem setCol_rows_set (df : Table) (i j k : Nat) (h : df.colIdx "OPS" = some k) :
    df.setCol "OPS" (opsColumn df i j)
      = ⟨df.cols, df.rows.map (fun r => r.set k (Value.add (cellAt i r) (cellAt j r)))⟩ := by
  simp only [Table.setCol, h, opsColumn, List.zipWith_map_right, List.zipWith_same]

theorem setCol_rows_append (df : Table) (i j : Nat) (h : df.colIdx "OPS" = none) :
    df.setCol "OPS" (opsColumn df i j)
      = ⟨df.cols ++ ["OPS"],
         df.rows.map (fun r => r ++ [Value.add (cellAt i r) (cellAt j r)])⟩ := by
  simp only [Table.setCol, h, opsColumn, List.zipWith_map_right, List.zipWith_same]

theorem colIdx_append_ops {cols : List String} {rows rows' : List (List Value)} {c : String}
    (hc : c ≠ "OPS") :
    (⟨cols ++ ["OPS"], rows'⟩ : Table).colIdx c = (⟨cols, rows⟩ : Table).colIdx c := by
  simp only [Table.colIdx, List.findIdx?_append, List.findIdx?_cons,
    beq_eq_false_iff_ne.mpr (Ne.symm hc), cond_false, Bool.false_eq_true, if_false,
    List.findIdx?_nil, Option.map_none', Option.or_none]

/-- Frame property of the in-place OPS assignment: every column other than
OPS reads the same before and after `df.setCol "OPS" (opsColumn df i j)`,
for rectangular tables. -/
theorem getCol_setCol_ne (df : Table) (i j : Nat)
    (hrect : ∀ r ∈ df.rows, r.length = df.cols.length)
    (c : String) (hc : c ≠ "OPS") :
    (df.setCol "OPS" (opsColumn df i j)).getCol c = df.getCol c := by
  cases hOPS : df.colIdx "OPS" with
  | some k =>
    rw [setCol_rows_set df i j k hOPS]
    obtain ⟨hklt, hkc⟩ := colIdx_getElem hOPS
    have hcols : (⟨df.cols, df.rows.map
        (fun r => r.set k (Value.add (cellAt i r) (cellAt j r)))⟩ : Table).colIdx c
        = df.colIdx c := rfl
    rw [Table.getCol, Table.getCol, hcols]
    cases hm : df.colIdx c with
    | none => rfl
    | some m =>
      obtain ⟨hmlt, hmc⟩ := colIdx_getElem hm
      have hkm : k ≠ m := by
        intro hkmeq
        subst hkmeq
        exact hc (hmc.symm.trans hkc)
      simp only [Option.map_some', List.map_map]
      congr 1
      exact List.map_congr_left (fun r _ => cellAt_set_ne hkm r _)
  | none =>
    rw [setCol_rows_append df i j hOPS]
    rw [Table.getCol, Table.getCol]
    have hcols : (⟨df.cols ++ ["OPS"], df.rows.map
        (fun r => r ++ [Value.add (cellAt i r) (cellAt j r)])⟩ : Table).colIdx c
        = df.colIdx c := by
      exact colIdx_append_ops hc
    rw [hcols]
    cases hm : df.colIdx c with
    | none => rfl
    | some m =>
      have hmlt := colIdx_lt hm
      simp only [Option.map_some', List.map_map]
      congr 1
      refine List.map_congr_left (fun r hr => ?_)
      exact cellAt_append_lt (by rw [hrect r hr]; exact hmlt) _

/-- C4 counterexample: `clean_data` mutates its argument in place; on a
non-empty table with OBP and SLG but no OPS column, the post-state of the
argument has gained an OPS column and differs from the input. -/
theorem C4_counterexample :
    clean_data_run ⟨["OBP", "SLG"], [[Value.num 1, Value.num 2]]⟩
      = .ok (⟨["OBP", "SLG", "OPS"], [[Value.num 1, Value.num 2, Value.num 3]]⟩,
             ⟨["OPS"], [[Value.num 3]]⟩) ∧
    (⟨["OBP", "SLG", "OPS"], [[Value.num 1, Value.num 2, Value.num 3]]⟩ : Table)
      ≠ ⟨["OBP", "SLG"], [[Value.num 1, Value.num 2]]⟩ := by
  constructor
  · simp +decide [clean_data_run, Table.isEmpty, Table.colIdx, Table.setCol, Table.selectCols,
      opsColumn, displayCols, Table.hasCol, cellAt, Value.add, List.findIdx?_cons]
    norm_num
  · intro h
    have := congrArg (fun t => t.cols.length) h
    simp at this

/-- C4 amended: the fetched table itself is never mutated (the filters are
pure row selections and `clean_data` receives the PA-filtered copy), but
`clean_data` does mutate its argument: the OPS assignment changes the
argument in place whenever it is non-empty and lacked an OPS column, leaving
every other column unchanged. -/
theorem C4_clean_data_mutates (df df2 u : Table)
    (hrect : ∀ r ∈ df.rows, r.length = df.cols.length)
    (h : clean_data_run df = .ok (df2, u)) :
    (∀ c, c ≠ "OPS" → df2.getCol c = df.getCol c) ∧
    (df.isEmpty = true → df2 = df) ∧
    (df.isEmpty = false → df.hasCol "OPS" = false → df2 ≠ df) := by
  by_cases he : df.isEmpty
  · rw [clean_data_run, if_pos he] at h
    obtain ⟨rfl, rfl⟩ : df2 = df ∧ u = df := by
      cases h
      exact ⟨rfl, rfl⟩
    exact ⟨fun c _ => rfl, fun _ => rfl, fun hf _ => absurd he (by simp [hf])⟩
  · rw [clean_data_run, if_neg he] at h
    cases hOBP : df.colIdx "OBP" with
    | none => rw [hOBP] at h; exact absurd h (by simp)
    | some i =>
    cases hSLG : df.colIdx "SLG" with
    | none => rw [hOBP, hSLG] at h; exact absurd h (by simp)
    | some j =>
    rw [hOBP, hSLG] at h
    simp only [Except.ok.injEq, Prod.mk.injEq] at h
    obtain ⟨hdf2, -⟩ := h
    refine ⟨fun c hc => ?_, fun ht => absurd ht (by simp [he]), fun _ hops => ?_⟩
    · rw [← hdf2]
      exact getCol_setCol_ne df i j hrect c hc
    · have hnone : df.colIdx "OPS" = none := by
        refine colIdx_eq_none (fun hmem => ?_)
        have h1 := hasCol_iff_mem.mpr hmem
        rw [hops] at h1
        exact Bool.noConfusion h1
      rw [← hdf2, setCol_rows_append df i j hnone]
      intro heq
      have hlen := congrArg (fun t => t.cols.length) heq
      simp at hlen

/-- C4 witness: on a concrete one-row table with OBP and SLG, the post-state
keeps the SLG column intact but is a different table (OPS was added in place). -/
theorem C4_clean_data_mutates_witness :
    Table.getCol ⟨["OBP", "SLG", "OPS"], [[Value.num 1, Value.num 2, Value.num 3]]⟩ "SLG"
      = Table.getCol ⟨["OBP", "SLG"], [[Value.num 1, Value.num 2]]⟩ "SLG" ∧
    (⟨["OBP", "SLG", "OPS"], [[Value.num 1, Value.num 2, Value.num 3]]⟩ : Table)
      ≠ ⟨["OBP", "SLG"], [[Value.num 1, Value.num 2]]⟩ := by
  have hrun : clean_data_run ⟨["OBP", "SLG"], [[Value.num 1, Value.num 2]]⟩
      = .ok (⟨["OBP", "SLG", "OPS"], [[Value.num 1, Value.num 2, Value.num 3]]⟩,
             ⟨["OPS"], [[Value.num 3]]⟩) := by
    simp +decide [clean_data_run, Table.isEmpty, Table.colIdx, Table.setCol, Table.selectCols,
      opsColumn, displayCols, Table.hasCol, cellAt, Value.add, List.findIdx?_cons]
    norm_num
  have h := C4_clean_data_mutates ⟨["OBP", "SLG"], [[Value.num 1, Value.num 2]]⟩
    ⟨["OBP", "SLG", "OPS"], [[Value.num 1, Value.num 2, Value.num 3]]⟩
    ⟨["OPS"], [[Value.num 3]]⟩
    (by
      intro r hr
      simp only [List.mem_cons, List.not_mem_nil, or_false] at hr
      subst hr
      rfl)
    hrun
  exact ⟨h.1 "SLG" (by decide), h.2.2 rfl rfl⟩

/-- C9: with a Team column of strings and nulls, the team options are exactly
"All" followed by the distinct non-null Team values sorted ascending. -/
theorem C9_team_options (df : Table) (i : Nat)
    (hi : df.colIdx "Team" = some i)
    (hstr : ∀ r ∈ df.rows, (∃ s, cellAt i r = Value.str s) ∨ cellAt i r = Value.null) :
    (∀ e, teams_of df ≠ .error e) ∧
    ∀ l, teams_of df = .ok l →
      l.head? = some "All" ∧
      List.Sorted (fun a b => a ≤ b) l.tail ∧
      l.tail.Nodup ∧
      ∀ s, s ∈ l.tail ↔ ∃ r ∈ df.rows, cellAt i r = Value.str s := by
  have hinj : Function.Injective Value.str := fun a b hab => by injection hab
  have hall : ∀ v ∈ uniqueFirst (dropna (df.rows.map (cellAt i))), ∃ s, v = Value.str s := by
    intro v hv
    rw [mem_uniqueFirst] at hv
    rw [dropna, List.mem_filter] at hv
    obtain ⟨hvmem, hvnn⟩ := hv
    obtain ⟨r, hr, hcell⟩ := List.mem_map.mp hvmem
    rcases hstr r hr with ⟨s, hs⟩ | hs
    · exact ⟨s, by rw [← hcell, hs]⟩
    · rw [← hcell, hs] at hvnn
      simp at hvnn
  obtain ⟨ss, hok, hmap⟩ := toStrList_ok _ hall
  have heval : teams_of df
      = .ok ("All" :: List.insertionSort (fun a b => a ≤ b) ss) := by
    simp only [teams_of, hi, hok, Except.map]
  refine ⟨fun e he => by rw [heval] at he; exact Except.noConfusion he, fun l hl => ?_⟩
  rw [heval] at hl
  obtain rfl : "All" :: List.insertionSort (fun a b => a ≤ b) ss = l := by
    cases hl
    rfl
  have hperm := List.perm_insertionSort (fun a b => a ≤ b) ss
  refine ⟨rfl, ?_, ?_, fun s => ?_⟩
  · exact List.sorted_insertionSort _ ss
  · exact hperm.nodup_iff.mpr (List.Nodup.of_map _ (hmap ▸ nodup_uniqueFirst _))
  · rw [List.tail_cons, hperm.mem_iff, ← List.mem_map_of_injective hinj, ← hmap,
      mem_uniqueFirst, dropna, List.mem_filter]
    simp only [str_bne_null, and_true, List.mem_map]

/-- C9 witness: Team values NYY, BOS, null, NYY give options All, BOS, NYY. -/
theorem C9_team_options_witness :
    teams_of ⟨["Name", "Team"],
        [[Value.str "A", Value.str "NYY"], [Value.str "B", Value.str "BOS"],
         [Value.str "C", Value.null], [Value.str "D", Value.str "NYY"]]⟩
      = .ok ["All", "BOS", "NYY"] ∧
    List.Sorted (fun a b => a ≤ b) ["BOS", "NYY"] := by
  have heval : teams_of ⟨["Name", "Team"],
        [[Value.str "A", Value.str "NYY"], [Value.str "B", Value.str "BOS"],
         [Value.str "C", Value.null], [Value.str "D", Value.str "NYY"]]⟩
      = .ok ["All", "BOS", "NYY"] := by
    simp +decide [teams_of, Table.colIdx, cellAt, dropna, uniqueFirst, toStrList,
      List.insertionSort, List.orderedInsert, List.findIdx?_cons, List.filter, Except.map,
      str_bne_null, num_bne_null, null_bne_null, str_bne_str]
  have h := (C9_team_options ⟨["Name", "Team"],
        [[Value.str "A", Value.str "NYY"], [Value.str "B", Value.str "BOS"],
         [Value.str "C", Value.null], [Value.str "D", Value.str "NYY"]]⟩ 1 rfl
    (by
      intro r hr
      simp only [List.mem_cons, List.not_mem_nil, or_false] at hr
      rcases hr with rfl | rfl | rfl | rfl
      · exact .inl ⟨"NYY", rfl⟩
      · exact .inl ⟨"BOS", rfl⟩
      · exact .inr rfl
      · exact .inl ⟨"NYY", rfl⟩)).2 _ heval
  exact ⟨heval, h.2.1⟩

/-- C10: for a non-empty input on which `clean_data` returns, the output
columns are exactly the members of the fixed display list present in the
OPS-augmented input, in the fixed list order; PA, OBP and SLG never survive. -/
theorem C10_projection (df u : Table)
    (hne : df.isEmpty = false)
    (h : clean_data df = .ok u) :
    u.cols = displayCols.filter (fun c => df.hasCol c || (c == "OPS")) ∧
    u.cols.Sublist displayCols ∧
    (∀ c, c ∈ u.cols ↔ c ∈ displayCols ∧ (c ∈ df.cols ∨ c = "OPS")) ∧
    "PA" ∉ u.cols ∧ "OBP" ∉ u.cols ∧ "SLG" ∉ u.cols := by
  rw [clean_data, clean_data_run, if_neg (by simp [hne])] at h
  cases hOBP : df.colIdx "OBP" with
  | none => rw [hOBP] at h; exact absurd h (by simp [Except.map])
  | some i =>
  cases hSLG : df.colIdx "SLG" with
  | none => rw [hOBP, hSLG] at h; exact absurd h (by simp [Except.map])
  | some j =>
  rw [hOBP, hSLG] at h
  simp only [Except.map, Except.ok.injEq] at h
  have hcols : u.cols
      = displayCols.filter (fun c => (df.setCol "OPS" (opsColumn df i j)).hasCol c) := by
    rw [← h]
    rfl
  have hpt : ∀ c, (df.setCol "OPS" (opsColumn df i j)).hasCol c
      = (df.hasCol c || (c == "OPS")) := by
    intro c
    rw [Bool.eq_iff_iff]
    cases hOPS : df.colIdx "OPS" with
    | some k =>
      rw [setCol_rows_set df i j k hOPS]
      have hops_mem : "OPS" ∈ df.cols := colIdx_mem hOPS
      simp only [Bool.or_eq_true, beq_iff_eq, hasCol_iff_mem]
      constructor
      · exact fun hm => .inl hm
      · rintro (hm | rfl)
        · exact hm
        · exact hops_mem
    | none =>
      rw [setCol_rows_append df i j hOPS]
      simp only [Bool.or_eq_true, beq_iff_eq, hasCol_iff_mem, List.mem_append,
        List.mem_singleton]
  have hfixed : u.cols = displayCols.filter (fun c => df.hasCol c || (c == "OPS")) := by
    rw [hcols]
    exact List.filter_congr (fun c _ => hpt c)
  refine ⟨hfixed, ?_, fun c => ?_, ?_, ?_, ?_⟩
  · rw [hfixed]
    exact List.filter_sublist _
  · rw [hfixed, List.mem_filter]
    simp [hasCol_iff_mem]
  · rw [hfixed, List.mem_filter]
    intro hmem
    exact absurd hmem.1 (by decide)
  · rw [hfixed, List.mem_filter]
    intro hmem
    exact absurd hmem.1 (by decide)
  · rw [hfixed, List.mem_filter]
    intro hmem
    exact absurd hmem.1 (by decide)

/-- C10 witness: a scrambled four-column input (Team, SLG, OBP, Name) yields
output columns Name, OPS, Team — in the fixed display order, without OBP/SLG. -/
theorem C10_projection_witness :
    Table.cols ⟨["Name", "OPS", "Team"],
        [[Value.str "A", Value.num 3, Value.str "NYY"]]⟩ = ["Name", "OPS", "Team"] ∧
    "OBP" ∉ Table.cols ⟨["Name", "OPS", "Team"],
        [[Value.str "A", Value.num 3, Value.str "NYY"]]⟩ ∧
    "PA" ∉ Table.cols ⟨["Name", "OPS", "Team"],
        [[Value.str "A", Value.num 3, Value.str "NYY"]]⟩ := by
  have hclean : clean_data ⟨["Team", "SLG", "OBP", "Name"],
        [[Value.str "NYY", Value.num 2, Value.num 1, Value.str "A"]]⟩
      = .ok ⟨["Name", "OPS", "Team"], [[Value.str "A", Value.num 3, Value.str "NYY"]]⟩ := by
    simp +decide [clean_data, clean_data_run, Except.map, Table.isEmpty, Table.colIdx,
      Table.setCol, Table.selectCols, opsColumn, displayCols, Table.hasCol, cellAt, Value.add,
      List.findIdx?_cons]
    norm_num
  have h := C10_projection ⟨["Team", "SLG", "OBP", "Name"],
        [[Value.str "NYY", Value.num 2, Value.num 1, Value.str "A"]]⟩
    ⟨["Name", "OPS", "Team"], [[Value.str "A", Value.num 3, Value.str "NYY"]]⟩ rfl hclean
  exact ⟨h.1.trans (by decide), h.2.2.2.2.1, h.2.2.2.1⟩
